import Mathlib

/-!
Shallow embedding of `src/scripts/update_readme.py` (repository rryam/VecturaKit).

The script is a linear pipeline:
  1. `get_codebase_summary` runs `git ls-files`, reads every listed file
     (absorbing per-file read errors into an inline placeholder), and
     concatenates one block per file.
  2. `call_togetherai` sends a system message plus the combined prompt to the
     Together chat-completions endpoint and returns
     `response.choices[0].message.content` (which may be `None`).
  3. `main` writes the response to `README.md` when it is truthy (non-`None`
     and non-empty), otherwise prints a failure message; uncaught exceptions
     from the subprocess call, the client constructor or the network call
     propagate and terminate the process with a non-zero status.

External effects are modelled as oracles: the `git ls-files` outcome, the
per-path read outcome, the SDK client constructor and the chat-completion
call are all `Except String` valued (the `error` case is a raised Python
exception rendered as its message).  A run also records an ordered trace of
the externally visible events (subprocess call, file opens for read, the
provider call, the single write), so frame and at-most-once properties are
statable.
-/

namespace UpdateReadme

/-- One chat message as built by `call_togetherai` (`role`/`content` pair). -/
structure Message where
  role : String
  content : String
deriving DecidableEq

/-- The module-level constant `SYSTEM_PROMPT` of the script. -/
def SYSTEM_PROMPT : String :=
  "You are a helpful assistant that reads the entire code base and rewrites the README.md file " ++
  "to provide clear instructions, describe the package, list dependencies, and usage examples. " ++
  "Please analyze the code and produce an updated README."

/-- The model-name constant passed to `client.chat.completions.create`. -/
def MODEL_NAME : String := "meta-llama/Llama-3.3-70B-Instruct-Turbo-Free"

/-- Oracle for the repository state seen by `get_codebase_summary`:
`lsFiles` is the outcome of `subprocess.check_output(["git", "ls-files"])`
split into lines (`error` = `CalledProcessError`, i.e. non-zero exit), and
`read` is the outcome of `open(file).read()` for each path (`error` = any
exception: `UnicodeDecodeError`, `PermissionError`, `FileNotFoundError`, ...). -/
structure Repo where
  lsFiles : Except String (List String)
  read : String → Except String String

/-- Oracle for a constructed Together client: `create model messages` is the
outcome of `client.chat.completions.create(...)` followed by the field access
`response.choices[0].message.content`; `ok none` models a response whose
message content is `None`, `error` models a raised transport, authentication
or provider-side exception. -/
structure Provider where
  create : String → List Message → Except String (Option String)

/-- The content bound in the loop body of `get_codebase_summary`: the file
text on success, or the placeholder built by the `except` clause
(`"Error reading file: " + str(e)`) on any read failure. -/
def readContent (repo : Repo) (file : String) : String :=
  match repo.read file with
  | Except.ok content => content
  | Except.error e => "Error reading file: " ++ e

/-- One iteration's contribution to `summary`:
the f-string `"--- {file} ---\n{content}\n\n"` with braces expanded. -/
def fileBlock (repo : Repo) (file : String) : String :=
  "--- " ++ file ++ " ---\n" ++ readContent repo file ++ "\n\n"

/-- `get_codebase_summary` from the script: list tracked files (propagating a
listing failure), then fold the per-file blocks onto `summary = ""`. -/
def get_codebase_summary (repo : Repo) : Except String String :=
  match repo.lsFiles with
  | Except.error e => Except.error e
  | Except.ok files =>
      Except.ok (files.foldl (fun summary file => summary ++ fileBlock repo file) "")

/-- The two-message list built inside `call_togetherai`. -/
def messagesFor (prompt : String) : List Message :=
  [{ role := "system", content := SYSTEM_PROMPT },
   { role := "user", content := prompt }]

/-- `call_togetherai` from the script: one `chat.completions.create` call with
the fixed model name and the system/user message pair. -/
def call_togetherai (client : Provider) (prompt : String) :
    Except String (Option String) :=
  client.create MODEL_NAME (messagesFor prompt)

/-- Externally visible events of a run, in order of occurrence. -/
inductive Event where
  | gitLsFiles
  | openRead (path : String)
  | openWrite (path : String)
  | providerCall
deriving DecidableEq

/-- Python truthiness of `updated_readme` in `if updated_readme:`:
`None` and the empty string are falsy, every other string is truthy. -/
def pyTruthy : Option String → Bool
  | none => false
  | some s => !s.isEmpty

/-- Process termination: `clean c` is a normal exit with code `c`;
`fatal e` is an unhandled exception (traceback printed, non-zero exit). -/
inductive Outcome where
  | clean (code : Nat)
  | fatal (err : String)
deriving DecidableEq

/-- Observable result of one run of the script: the final contents of
`README.md`, the lines printed to stdout, the termination outcome, and the
ordered event trace. -/
structure RunResult where
  readme : String
  printed : List String
  outcome : Outcome
  events : List Event
deriving DecidableEq

/-- The process environment of one run: the value of
`os.environ.get("TOGETHER_API_KEY")`, the SDK constructor
`Together(api_key=...)` as an oracle (it may raise, e.g. on a missing
credential), the repository oracle, and the initial contents of
`README.md`. -/
structure Env where
  apiKey : Option String
  together : Option String → Except String Provider
  repo : Repo
  readme0 : String

/-- The events emitted by `get_codebase_summary`: the `git ls-files`
subprocess call, followed (on success) by one read-mode `open` per listed
path, in listing order. -/
def collectorEvents (repo : Repo) : List Event :=
  match repo.lsFiles with
  | Except.error _ => [Event.gitLsFiles]
  | Except.ok files => Event.gitLsFiles :: files.map Event.openRead

/-- `main` from the script, given the already-constructed client: collect the
codebase summary (a listing failure propagates), build
`full_prompt = f"Codebase files:\n{codebase_context}"`, make the single
provider call (a raised exception propagates), then either overwrite
`README.md` and print success, or print failure. -/
def main (client : Provider) (env : Env) : RunResult :=
  match get_codebase_summary env.repo with
  | Except.error e =>
      { readme := env.readme0, printed := [], outcome := Outcome.fatal e,
        events := collectorEvents env.repo }
  | Except.ok codebase_context =>
      let full_prompt := "Codebase files:\n" ++ codebase_context
      match call_togetherai client full_prompt with
      | Except.error e =>
          { readme := env.readme0, printed := [], outcome := Outcome.fatal e,
            events := collectorEvents env.repo ++ [Event.providerCall] }
      | Except.ok updated_readme =>
          if pyTruthy updated_readme then
            { readme := updated_readme.getD "",
              printed := ["README.md has been updated."],
              outcome := Outcome.clean 0,
              events := collectorEvents env.repo ++
                [Event.providerCall, Event.openWrite "README.md"] }
          else
            { readme := env.readme0,
              printed := ["Failed to update README.md."],
              outcome := Outcome.clean 0,
              events := collectorEvents env.repo ++ [Event.providerCall] }

/-- One full run of the script: module load constructs the client from the
environment variable (a raised exception aborts before anything else runs),
then `main()` executes. -/
def runScript (env : Env) : RunResult :=
  match env.together env.apiKey with
  | Except.error e =>
      { readme := env.readme0, printed := [], outcome := Outcome.fatal e,
        events := [] }
  | Except.ok client => main client env

/-- Concrete repository fixture: two tracked files, the second unreadable. -/
def exRepo : Repo :=
  { lsFiles := Except.ok ["a.txt", "bin.dat"],
    read := fun f =>
      if f = "a.txt" then Except.ok "hello\n"
      else Except.error "UnicodeDecodeError" }

/-- Concrete provider fixture returning a fixed outcome on every call. -/
def exProvider (r : Except String (Option String)) : Provider :=
  { create := fun _ _ => r }

/-- Concrete environment fixture: credential present, client construction
succeeds with `exProvider r`, repository `exRepo`, initial README `r0`. -/
def exEnv (r : Except String (Option String)) (r0 : String) : Env :=
  { apiKey := some "key",
    together := fun _ => Except.ok (exProvider r),
    repo := exRepo,
    readme0 := r0 }

/-- Concrete environment fixture whose client construction raises (the
credential variable is unset, so `Together(api_key=None)` fails). -/
def exEnvNoKey : Env :=
  { apiKey := none,
    together := fun k =>
      match k with
      | none => Except.error "TOGETHER_API_KEY not set"
      | some _ => Except.ok (exProvider (Except.ok (some "new doc"))),
    repo := exRepo,
    readme0 := "old readme" }

/-- Number of occurrences of the event `a` in a trace. -/
def countEvent (a : Event) : List Event → Nat
  | [] => 0
  | e :: es => (if e = a then 1 else 0) + countEvent a es

/-- On a successful listing, the summary is the concatenation of the per-file
blocks in listing order. -/
theorem get_codebase_summary_eq (repo : Repo) (files : List String)
    (h : repo.lsFiles = Except.ok files) :
    get_codebase_summary repo =
      Except.ok (String.join (files.map (fileBlock repo))) := by
  unfold get_codebase_summary
  rw [h]
  rw [String.join, List.foldl_map]

/-- Reduction helper: a run whose client construction succeeds, whose listing
succeeds, and whose single provider call yields a falsy content (`None` or
the empty string) ends in the soft-failure branch: no write, the failure
message, a clean exit, and a trace with one listing call, one read per listed
file, and one provider call. -/
theorem runScript_falsy (env : Env) (client : Provider) (files : List String)
    (content : Option String)
    (hc : env.together env.apiKey = Except.ok client)
    (hls : env.repo.lsFiles = Except.ok files)
    (hresp : call_togetherai client
        ("Codebase files:\n" ++ String.join (files.map (fileBlock env.repo))) =
      Except.ok content)
    (hpt : pyTruthy content = false) :
    runScript env =
      { readme := env.readme0,
        printed := ["Failed to update README.md."],
        outcome := Outcome.clean 0,
        events := Event.gitLsFiles :: files.map Event.openRead ++
          [Event.providerCall] } := by
  have hsum := get_codebase_summary_eq env.repo files hls
  have hev : collectorEvents env.repo =
      Event.gitLsFiles :: files.map Event.openRead := by
    unfold collectorEvents
    rw [hls]
  simp [runScript, hc, main, hsum, hresp, hpt, hev]

/-- Reduction helper: a run whose client construction succeeds, whose listing
succeeds, and whose single provider call yields a truthy content ends in the
write branch: `README.md` receives exactly the returned string, the success
message is printed, the exit is clean, and the trace ends with the single
write of `README.md`. -/
theorem runScript_truthy (env : Env) (client : Provider) (files : List String)
    (content : Option String)
    (hc : env.together env.apiKey = Except.ok client)
    (hls : env.repo.lsFiles = Except.ok files)
    (hresp : call_togetherai client
        ("Codebase files:\n" ++ String.join (files.map (fileBlock env.repo))) =
      Except.ok content)
    (hpt : pyTruthy content = true) :
    runScript env =
      { readme := content.getD "",
        printed := ["README.md has been updated."],
        outcome := Outcome.clean 0,
        events := Event.gitLsFiles :: files.map Event.openRead ++
          [Event.providerCall, Event.openWrite "README.md"] } := by
  have hsum := get_codebase_summary_eq env.repo files hls
  have hev : collectorEvents env.repo =
      Event.gitLsFiles :: files.map Event.openRead := by
    unfold collectorEvents
    rw [hls]
  simp [runScript, hc, main, hsum, hresp, hpt, hev]

/-- Reduction helper: truthiness of a non-empty string. -/
theorem pyTruthy_some_of_ne (S : String) (hS : S ≠ "") :
    pyTruthy (some S) = true := by
  have hie : S.isEmpty = false := by
    cases h : S.isEmpty with
    | false => rfl
    | true => exact absurd ((String.isEmpty_iff S).mp h) hS
  simp [pyTruthy, hie]

/-- Claim C3: on a listing of `files`, the collector's output is exactly the
concatenation, in listing order, of one block per listed file, each block
being the path header followed by that file's exact content (or the error
placeholder) and the blank-line separator; the block list has exactly one
entry per listed path, so no file is dropped and none is duplicated. -/
theorem collector_one_block_per_file (repo : Repo) (files : List String)
    (h : repo.lsFiles = Except.ok files) :
    get_codebase_summary repo =
      Except.ok (String.join (files.map (fun file =>
        "--- " ++ file ++ " ---\n" ++ readContent repo file ++ "\n\n"))) ∧
    (files.map (fileBlock repo)).length = files.length ∧
    ∀ i : Nat, i < files.length →
      (files.map (fileBlock repo)).getD i "" =
        "--- " ++ files.getD i "" ++ " ---\n" ++
          readContent repo (files.getD i "") ++ "\n\n" := by
  refine ⟨get_codebase_summary_eq repo files h, List.length_map _ _, ?_⟩
  intro i hi
  have hget : files[i]? = some (files.getD i "") := by
    rw [List.getD_eq_getD_get?, List.get?_eq_getElem?]
    cases hx : files[i]? with
    | none => exact absurd (List.getElem?_eq_none_iff.mp hx) (Nat.not_le.mpr hi)
    | some v => rfl
  rw [List.getD_eq_getD_get?, List.get?_eq_getElem?, List.getElem?_map, hget]
  rfl

/-- Claim C8: the collector is deterministic in the repository state: two
repository oracles with the same listing and the same read outcome on every
listed path produce the identical summary string. -/
theorem collector_deterministic (repoA repoB : Repo) (files : List String)
    (hA : repoA.lsFiles = Except.ok files) (hB : repoB.lsFiles = Except.ok files)
    (hread : ∀ f ∈ files, repoA.read f = repoB.read f) :
    get_codebase_summary repoA = get_codebase_summary repoB := by
  rw [get_codebase_summary_eq repoA files hA, get_codebase_summary_eq repoB files hB]
  have hmap : files.map (fileBlock repoA) = files.map (fileBlock repoB) := by
    apply List.map_congr_left
    intro f hf
    unfold fileBlock readContent
    rw [hread f hf]
  rw [hmap]

/-- Witness for C8 at a concrete pair of repositories. -/
theorem collector_deterministic_witness :
    get_codebase_summary exRepo =
      get_codebase_summary
        { lsFiles := Except.ok ["a.txt", "bin.dat"], read := exRepo.read } := by
  exact collector_deterministic exRepo
    { lsFiles := Except.ok ["a.txt", "bin.dat"], read := exRepo.read }
    ["a.txt", "bin.dat"] rfl rfl (fun f _ => rfl)

/-- Witness for C3 at the concrete fixture repository. -/
theorem collector_one_block_per_file_witness :
    get_codebase_summary exRepo =
      Except.ok (String.join (["a.txt", "bin.dat"].map (fun file =>
        "--- " ++ file ++ " ---\n" ++ readContent exRepo file ++ "\n\n"))) ∧
    ((["a.txt", "bin.dat"] : List String).map (fileBlock exRepo)).length =
      (["a.txt", "bin.dat"] : List String).length ∧
    ∀ i : Nat, i < (["a.txt", "bin.dat"] : List String).length →
      ((["a.txt", "bin.dat"] : List String).map (fileBlock exRepo)).getD i "" =
        "--- " ++ (["a.txt", "bin.dat"] : List String).getD i "" ++ " ---\n" ++
          readContent exRepo ((["a.txt", "bin.dat"] : List String).getD i "") ++
          "\n\n" :=
  collector_one_block_per_file exRepo ["a.txt", "bin.dat"] rfl

/-- Claim C4: a failing read of a listed file is absorbed, not raised: the
collector still returns successfully, the failing file's content is replaced
by the placeholder naming the error, and the file's block is still present in
the output (collection continues over all listed files). -/
theorem read_error_absorbed (repo : Repo) (files : List String) (f e : String)
    (hls : repo.lsFiles = Except.ok files)
    (hmem : f ∈ files)
    (hread : repo.read f = Except.error e) :
    readContent repo f = "Error reading file: " ++ e ∧
    get_codebase_summary repo =
      Except.ok (String.join (files.map (fileBlock repo))) ∧
    ("--- " ++ f ++ " ---\n" ++ ("Error reading file: " ++ e) ++ "\n\n") ∈
      files.map (fileBlock repo) := by
  have hcontent : readContent repo f = "Error reading file: " ++ e := by
    unfold readContent
    rw [hread]
  refine ⟨hcontent, get_codebase_summary_eq repo files hls, ?_⟩
  have hblock : fileBlock repo f =
      "--- " ++ f ++ " ---\n" ++ ("Error reading file: " ++ e) ++ "\n\n" := by
    unfold fileBlock
    rw [hcontent]
  rw [← hblock]
  exact List.mem_map_of_mem _ hmem

/-- Witness for C4 at the concrete fixture (its second file is unreadable). -/
theorem read_error_absorbed_witness :
    readContent exRepo "bin.dat" = "Error reading file: " ++ "UnicodeDecodeError" ∧
    get_codebase_summary exRepo =
      Except.ok (String.join ((["a.txt", "bin.dat"] : List String).map
        (fileBlock exRepo))) ∧
    ("--- " ++ "bin.dat" ++ " ---\n" ++
        ("Error reading file: " ++ "UnicodeDecodeError") ++ "\n\n") ∈
      (["a.txt", "bin.dat"] : List String).map (fileBlock exRepo) :=
  read_error_absorbed exRepo ["a.txt", "bin.dat"] "bin.dat" "UnicodeDecodeError"
    rfl (by decide) rfl

/-- Claim C1: when the single provider call returns an empty string, the run
performs no write (`README.md` keeps its prior contents), the failure message
is printed, and the process still terminates normally with exit code zero. -/
theorem empty_response_no_write (env : Env) (client : Provider)
    (files : List String)
    (hc : env.together env.apiKey = Except.ok client)
    (hls : env.repo.lsFiles = Except.ok files)
    (hresp : call_togetherai client
        ("Codebase files:\n" ++ String.join (files.map (fileBlock env.repo))) =
      Except.ok (some "")) :
    (runScript env).readme = env.readme0 ∧
    (runScript env).printed = ["Failed to update README.md."] ∧
    (runScript env).outcome = Outcome.clean 0 := by
  rw [runScript_falsy env client files (some "") hc hls hresp rfl]
  exact ⟨rfl, rfl, rfl⟩

/-- Witness for C1 at the concrete fixture environment. -/
theorem empty_response_no_write_witness :
    (runScript (exEnv (Except.ok (some "")) "old readme")).readme = "old readme" ∧
    (runScript (exEnv (Except.ok (some "")) "old readme")).printed =
      ["Failed to update README.md."] ∧
    (runScript (exEnv (Except.ok (some "")) "old readme")).outcome =
      Outcome.clean 0 :=
  empty_response_no_write (exEnv (Except.ok (some "")) "old readme")
    (exProvider (Except.ok (some ""))) ["a.txt", "bin.dat"] rfl rfl rfl

/-- Claim C2: when the single provider call returns a non-empty string `S`,
after the run `README.md` contains exactly `S`: a verbatim full replacement,
with no wrapping, trimming, appending, or merging with the prior contents. -/
theorem nonempty_response_overwrites (env : Env) (client : Provider)
    (files : List String) (S : String)
    (hc : env.together env.apiKey = Except.ok client)
    (hls : env.repo.lsFiles = Except.ok files)
    (hresp : call_togetherai client
        ("Codebase files:\n" ++ String.join (files.map (fileBlock env.repo))) =
      Except.ok (some S))
    (hS : S ≠ "") :
    (runScript env).readme = S ∧
    (runScript env).printed = ["README.md has been updated."] ∧
    (runScript env).outcome = Outcome.clean 0 := by
  rw [runScript_truthy env client files (some S) hc hls hresp
    (pyTruthy_some_of_ne S hS)]
  exact ⟨rfl, rfl, rfl⟩

/-- Witness for C2 at the concrete fixture environment. -/
theorem nonempty_response_overwrites_witness :
    (runScript (exEnv (Except.ok (some "new doc")) "old readme")).readme =
      "new doc" ∧
    (runScript (exEnv (Except.ok (some "new doc")) "old readme")).printed =
      ["README.md has been updated."] ∧
    (runScript (exEnv (Except.ok (some "new doc")) "old readme")).outcome =
      Outcome.clean 0 :=
  nonempty_response_overwrites (exEnv (Except.ok (some "new doc")) "old readme")
    (exProvider (Except.ok (some "new doc"))) ["a.txt", "bin.dat"] "new doc"
    rfl rfl rfl (by decide)

/-- Claim C5: when `git ls-files` exits non-zero, the raised error is not
caught: the run terminates fatally with that error, `README.md` keeps its
prior contents, and the event trace shows exactly the one listing attempt —
no retry, no file read, no provider call, no write. -/
theorem listing_failure_fatal (env : Env) (client : Provider) (e : String)
    (hc : env.together env.apiKey = Except.ok client)
    (hls : env.repo.lsFiles = Except.error e) :
    (runScript env).readme = env.readme0 ∧
    (runScript env).outcome = Outcome.fatal e ∧
    (runScript env).events = [Event.gitLsFiles] := by
  have hsum : get_codebase_summary env.repo = Except.error e := by
    unfold get_codebase_summary
    rw [hls]
  have hev : collectorEvents env.repo = [Event.gitLsFiles] := by
    unfold collectorEvents
    rw [hls]
  simp [runScript, hc, main, hsum, hev]

/-- Witness for C5 at a concrete environment whose listing fails. -/
theorem listing_failure_fatal_witness :
    (runScript
      { apiKey := some "key",
        together := fun _ => Except.ok (exProvider (Except.ok (some "new doc"))),
        repo := { lsFiles := Except.error "fatal: not a git repository",
                  read := fun _ => Except.ok "" },
        readme0 := "old readme" }).readme = "old readme" ∧
    (runScript
      { apiKey := some "key",
        together := fun _ => Except.ok (exProvider (Except.ok (some "new doc"))),
        repo := { lsFiles := Except.error "fatal: not a git repository",
                  read := fun _ => Except.ok "" },
        readme0 := "old readme" }).outcome =
      Outcome.fatal "fatal: not a git repository" ∧
    (runScript
      { apiKey := some "key",
        together := fun _ => Except.ok (exProvider (Except.ok (some "new doc"))),
        repo := { lsFiles := Except.error "fatal: not a git repository",
                  read := fun _ => Except.ok "" },
        readme0 := "old readme" }).events = [Event.gitLsFiles] :=
  listing_failure_fatal _ (exProvider (Except.ok (some "new doc")))
    "fatal: not a git repository" rfl rfl

/-- Counting helper: a trace of read-mode opens contains no occurrence of an
event that is not a read-mode open. -/
theorem countEvent_openRead_map (a : Event) (h : ∀ q, a ≠ Event.openRead q)
    (files : List String) : countEvent a (files.map Event.openRead) = 0 := by
  induction files with
  | nil => rfl
  | cons f fs ih =>
    simp only [List.map_cons, countEvent]
    rw [if_neg (fun hEq => h f hEq.symm), ih]

/-- Counting helper: `countEvent` distributes over trace concatenation. -/
theorem countEvent_append (a : Event) (l₁ l₂ : List Event) :
    countEvent a (l₁ ++ l₂) = countEvent a l₁ + countEvent a l₂ := by
  induction l₁ with
  | nil => simp [countEvent]
  | cons e es ih => simp [countEvent, ih, Nat.add_assoc]

/-- Reduction helper: every run's event trace has one of four shapes —
nothing (client construction failed), only the listing call (listing failed),
the collection events plus one provider call (provider raised or content was
falsy), or those plus the single write of `README.md`. -/
theorem runScript_events_cases (env : Env) :
    (runScript env).events = [] ∨
    (runScript env).events = [Event.gitLsFiles] ∨
    (∃ files, env.repo.lsFiles = Except.ok files ∧
      ((runScript env).events =
        Event.gitLsFiles :: files.map Event.openRead ++ [Event.providerCall] ∨
       (runScript env).events =
        Event.gitLsFiles :: files.map Event.openRead ++
          [Event.providerCall, Event.openWrite "README.md"])) := by
  cases hc : env.together env.apiKey with
  | error e =>
    left
    simp [runScript, hc]
  | ok client =>
    cases hls : env.repo.lsFiles with
    | error e =>
      right; left
      have hsum : get_codebase_summary env.repo = Except.error e := by
        unfold get_codebase_summary
        rw [hls]
      have hev : collectorEvents env.repo = [Event.gitLsFiles] := by
        unfold collectorEvents
        rw [hls]
      simp [runScript, hc, main, hsum, hev]
    | ok files =>
      right; right
      refine ⟨files, rfl, ?_⟩
      have hsum := get_codebase_summary_eq env.repo files hls
      have hev : collectorEvents env.repo =
          Event.gitLsFiles :: files.map Event.openRead := by
        unfold collectorEvents
        rw [hls]
      cases hcall : call_togetherai client
          ("Codebase files:\n" ++
            String.join (files.map (fileBlock env.repo))) with
      | error e =>
        left
        simp [runScript, hc, main, hsum, hcall, hev]
      | ok content =>
        cases hpt : pyTruthy content with
        | false =>
          left
          simp [runScript, hc, main, hsum, hcall, hpt, hev]
        | true =>
          right
          simp [runScript, hc, main, hsum, hcall, hpt, hev]

/-- Claim C6: fatal environment and transport errors abort the run with
`README.md` unmutated — a failing client construction (e.g. a missing
credential) aborts immediately, before any subprocess call, file access or
network call (empty event trace); a raised provider call aborts with the
prior README preserved — and no external call is retried: in every run the
`git ls-files` subprocess and the provider call each occur at most once in
the event trace. -/
theorem fatal_errors_abort_without_write (env : Env) :
    (∀ e, env.together env.apiKey = Except.error e →
      (runScript env).readme = env.readme0 ∧
      (runScript env).outcome = Outcome.fatal e ∧
      (runScript env).events = []) ∧
    (∀ client files e, env.together env.apiKey = Except.ok client →
      env.repo.lsFiles = Except.ok files →
      call_togetherai client
          ("Codebase files:\n" ++
            String.join (files.map (fileBlock env.repo))) =
        Except.error e →
      (runScript env).readme = env.readme0 ∧
      (runScript env).outcome = Outcome.fatal e) ∧
    countEvent Event.gitLsFiles (runScript env).events ≤ 1 ∧
    countEvent Event.providerCall (runScript env).events ≤ 1 := by
  refine ⟨?_, ?_, ?_⟩
  · intro e he
    refine ⟨?_, ?_, ?_⟩ <;> simp [runScript, he]
  · intro client files e hc hls hcall
    have hsum := get_codebase_summary_eq env.repo files hls
    constructor <;> simp [runScript, hc, main, hsum, hcall]
  · have h1 := countEvent_openRead_map Event.gitLsFiles
      (fun q hq => Event.noConfusion hq)
    have h2 := countEvent_openRead_map Event.providerCall
      (fun q hq => Event.noConfusion hq)
    rcases runScript_events_cases env with hev | hev | ⟨files, _, hev | hev⟩ <;>
      rw [hev] <;>
      simp [countEvent, countEvent_append, h1, h2]

/-- Witness for C6: the missing-credential abort, a transport-error abort,
and the at-most-once bound, at concrete environments. -/
theorem fatal_errors_abort_without_write_witness :
    ((runScript exEnvNoKey).readme = exEnvNoKey.readme0 ∧
     (runScript exEnvNoKey).outcome = Outcome.fatal "TOGETHER_API_KEY not set" ∧
     (runScript exEnvNoKey).events = []) ∧
    ((runScript (exEnv (Except.error "APIConnectionError") "old readme")).readme =
        "old readme" ∧
     (runScript (exEnv (Except.error "APIConnectionError") "old readme")).outcome =
        Outcome.fatal "APIConnectionError") ∧
    countEvent Event.providerCall (runScript exEnvNoKey).events ≤ 1 :=
  ⟨(fatal_errors_abort_without_write exEnvNoKey).1 "TOGETHER_API_KEY not set" rfl,
   (fatal_errors_abort_without_write
      (exEnv (Except.error "APIConnectionError") "old readme")).2.1
     (exProvider (Except.error "APIConnectionError")) ["a.txt", "bin.dat"]
     "APIConnectionError" rfl rfl rfl,
   (fatal_errors_abort_without_write exEnvNoKey).2.2.2⟩

/-- Claim C7: with the repository and provider oracles fixed and the single
provider call returning the same non-empty text `S`, a second run started
from the first run's resulting `README.md` again ends with contents exactly
`S`; indeed a run from any prior `README.md` contents ends with exactly `S`
(full overwrite, never a merge with prior content). -/
theorem double_run_full_overwrite (env : Env) (client : Provider)
    (files : List String) (S : String)
    (hc : env.together env.apiKey = Except.ok client)
    (hls : env.repo.lsFiles = Except.ok files)
    (hresp : call_togetherai client
        ("Codebase files:\n" ++ String.join (files.map (fileBlock env.repo))) =
      Except.ok (some S))
    (hS : S ≠ "") :
    (runScript { env with readme0 := (runScript env).readme }).readme = S ∧
    ∀ r : String, (runScript { env with readme0 := r }).readme = S := by
  have hgen : ∀ r : String, (runScript { env with readme0 := r }).readme = S := by
    intro r
    rw [runScript_truthy { env with readme0 := r } client files (some S) hc hls
      hresp (pyTruthy_some_of_ne S hS)]
    rfl
  exact ⟨hgen _, hgen⟩

/-- Witness for C7 at the concrete fixture environment, including a second
run started from the first run's output and a run from an unrelated prior
README. -/
theorem double_run_full_overwrite_witness :
    (runScript { exEnv (Except.ok (some "new doc")) "first readme" with
      readme0 :=
        (runScript (exEnv (Except.ok (some "new doc")) "first readme")).readme
      }).readme = "new doc" ∧
    (runScript { exEnv (Except.ok (some "new doc")) "first readme" with
      readme0 := "unrelated prior" }).readme = "new doc" :=
  ⟨(double_run_full_overwrite (exEnv (Except.ok (some "new doc")) "first readme")
      (exProvider (Except.ok (some "new doc"))) ["a.txt", "bin.dat"] "new doc"
      rfl rfl rfl (by decide)).1,
   (double_run_full_overwrite (exEnv (Except.ok (some "new doc")) "first readme")
      (exProvider (Except.ok (some "new doc"))) ["a.txt", "bin.dat"] "new doc"
      rfl rfl rfl (by decide)).2 "unrelated prior"⟩

/-- Claim C9: a provider response whose message content is absent (`None`)
takes the same soft-failure path as an empty string: `README.md` keeps its
prior contents, the failure message is printed, the process exits cleanly,
and the whole observable run result coincides with that of an
otherwise-identical environment whose provider returns the empty string. -/
theorem none_content_soft_failure (env : Env) (client : Provider)
    (files : List String)
    (hc : env.together env.apiKey = Except.ok client)
    (hls : env.repo.lsFiles = Except.ok files)
    (hresp : call_togetherai client
        ("Codebase files:\n" ++ String.join (files.map (fileBlock env.repo))) =
      Except.ok none) :
    (runScript env).readme = env.readme0 ∧
    (runScript env).printed = ["Failed to update README.md."] ∧
    (runScript env).outcome = Outcome.clean 0 ∧
    (∀ envB clientB, envB.repo = env.repo → envB.readme0 = env.readme0 →
      envB.together envB.apiKey = Except.ok clientB →
      call_togetherai clientB
          ("Codebase files:\n" ++
            String.join (files.map (fileBlock envB.repo))) =
        Except.ok (some "") →
      runScript envB = runScript env) := by
  have h1 := runScript_falsy env client files none hc hls hresp rfl
  refine ⟨by rw [h1], by rw [h1], by rw [h1], ?_⟩
  intro envB clientB hrepo hr0 hcB hrespB
  have hlsB : envB.repo.lsFiles = Except.ok files := by
    rw [hrepo]
    exact hls
  rw [hrepo] at hrespB
  have h2 := runScript_falsy envB clientB files (some "") hcB hlsB ?_ rfl
  · rw [h1, h2, hr0]
  · rw [hrepo]
    exact hrespB

/-- Witness for C9 at the concrete fixture environments (content `None`
versus content `""`). -/
theorem none_content_soft_failure_witness :
    (runScript (exEnv (Except.ok none) "old readme")).readme = "old readme" ∧
    (runScript (exEnv (Except.ok none) "old readme")).printed =
      ["Failed to update README.md."] ∧
    (runScript (exEnv (Except.ok none) "old readme")).outcome =
      Outcome.clean 0 ∧
    runScript (exEnv (Except.ok (some "")) "old readme") =
      runScript (exEnv (Except.ok none) "old readme") :=
  ⟨(none_content_soft_failure (exEnv (Except.ok none) "old readme")
      (exProvider (Except.ok none)) ["a.txt", "bin.dat"] rfl rfl rfl).1,
   (none_content_soft_failure (exEnv (Except.ok none) "old readme")
      (exProvider (Except.ok none)) ["a.txt", "bin.dat"] rfl rfl rfl).2.1,
   (none_content_soft_failure (exEnv (Except.ok none) "old readme")
      (exProvider (Except.ok none)) ["a.txt", "bin.dat"] rfl rfl rfl).2.2.1,
   (none_content_soft_failure (exEnv (Except.ok none) "old readme")
      (exProvider (Except.ok none)) ["a.txt", "bin.dat"] rfl rfl rfl).2.2.2
     (exEnv (Except.ok (some "")) "old readme")
     (exProvider (Except.ok (some ""))) rfl rfl rfl rfl⟩

/-- Claim C10: the only path ever opened for writing, on any execution path
of any run, is `README.md`; tracked files appear in the trace only as
read-mode opens, so no other file is created, truncated or modified. -/
theorem only_readme_opened_for_write (env : Env) (p : String)
    (h : Event.openWrite p ∈ (runScript env).events) : p = "README.md" := by
  rcases runScript_events_cases env with hev | hev | ⟨files, _, hev | hev⟩
  · rw [hev] at h
    simp at h
  · rw [hev] at h
    simp at h
  · rw [hev] at h
    simp at h
  · rw [hev] at h
    simp at h
    exact h

/-- Witness for C10 at a concrete run that does write `README.md`. -/
theorem only_readme_opened_for_write_witness :
    Event.openWrite "README.md" ∈
      (runScript (exEnv (Except.ok (some "new doc")) "prior readme")).events ∧
    "README.md" = "README.md" := by
  have hmem : Event.openWrite "README.md" ∈
      (runScript (exEnv (Except.ok (some "new doc")) "prior readme")).events := by
    rw [runScript_truthy (exEnv (Except.ok (some "new doc")) "prior readme")
      (exProvider (Except.ok (some "new doc"))) ["a.txt", "bin.dat"]
      (some "new doc") rfl rfl rfl rfl]
    simp
  exact ⟨hmem, only_readme_opened_for_write _ "README.md" hmem⟩

end UpdateReadme
